import Mathlib

/-!
Verification development for the RealEstate core views
(`RealEstate/apps/core/views.py`).

The Django views are shallowly embedded: the relational database becomes a
record of lists of rows, querysets become list filters, and each view method
becomes a pure function from the request data and the database state to a
response (and, for write paths, an updated database state).

The model files (`core/models.py`, `pending/models.py`) are not part of the
shown source; row shapes and collaborator behaviour (`User.role_object`, the
unique constraint on Grade, the choice set on the Grade score field) are
modelled from the spec where marked.
-/

namespace RealEstateViews

/-- A Homebuyer row.  Modelled from the spec: a homebuyer belongs to a User
and (normally) to a Couple; the couple link is kept optional so that states
contemplated by the spec (a homebuyer without a couple) are representable. -/
structure Homebuyer where
  id : Nat
  userId : Nat
  coupleId : Option Nat
deriving DecidableEq, Repr

/-- A Realtor row.  Modelled from the spec: a realtor belongs to a User. -/
structure Realtor where
  id : Nat
  userId : Nat
deriving DecidableEq, Repr

/-- A Couple row.  Modelled from the spec: a couple is owned by a Realtor. -/
structure Couple where
  id : Nat
  realtorId : Nat
deriving DecidableEq, Repr

/-- A House row.  Modelled from the spec: a house is associated to a Couple. -/
structure House where
  id : Nat
  coupleId : Nat
deriving DecidableEq, Repr

/-- A Category row.  Modelled from the spec: a category is scoped to a
Couple. -/
structure Category where
  id : Nat
  coupleId : Nat
deriving DecidableEq, Repr

/-- A Grade row.  Modelled from the spec: a (homebuyer, category, house)
tuple with an integer score. -/
structure Grade where
  homebuyerId : Nat
  categoryId : Nat
  houseId : Nat
  score : Int
deriving DecidableEq, Repr

/-- A PendingCouple row.  Modelled from the spec: owned by a Realtor. -/
structure PendingCouple where
  id : Nat
  realtorId : Nat
deriving DecidableEq, Repr

/-- A PendingHomebuyer row.  Modelled from the spec: holds an email and a
back-reference to its PendingCouple. -/
structure PendingHomebuyer where
  email : String
  pendingCoupleId : Nat
deriving DecidableEq, Repr

/-- The relational database visible to the views, as a record of row lists. -/
structure DB where
  homebuyers : List Homebuyer
  realtors : List Realtor
  couples : List Couple
  houses : List House
  categories : List Category
  grades : List Grade
  pendingCouples : List PendingCouple
  pendingHomebuyers : List PendingHomebuyer
deriving DecidableEq, Repr

/-- The resolved role of an authenticated user. -/
inductive Role where
  | homebuyer (hb : Homebuyer)
  | realtor (r : Realtor)
  | noRole
deriving DecidableEq, Repr

/-- Modelled from the spec: `User.role_object` (not under src/) resolves an
authenticated actor to their Homebuyer record, else their Realtor record,
else none. -/
def roleObject (db : DB) (userId : Nat) : Role :=
  match db.homebuyers.find? (fun hb => hb.userId == userId) with
  | some hb => Role.homebuyer hb
  | none =>
    match db.realtors.find? (fun r => r.userId == userId) with
    | some r => Role.realtor r
    | none => Role.noRole

/-- `Couple.objects.filter(homebuyer__user=request.user)`: the couples having
a homebuyer whose user is the given user. -/
def userCouples (db : DB) (userId : Nat) : List Couple :=
  db.couples.filter (fun c =>
    db.homebuyers.any (fun hb => hb.userId == userId && hb.coupleId == some c.id))

/-- `Realtor.objects.filter(user=request.user)`. -/
def userRealtors (db : DB) (userId : Nat) : List Realtor :=
  db.realtors.filter (fun r => r.userId == userId)

/-- `House.objects.filter(couple=couple)` where `couple` is a queryset: the
houses whose couple is one of the given couples. -/
def housesOfCouples (db : DB) (cs : List Couple) : List House :=
  db.houses.filter (fun h => cs.any (fun c => c.id == h.coupleId))

/-- `Couple.objects.filter(realtor=realtor)` where `realtor` is a queryset. -/
def realtorOwnedCouples (db : DB) (rs : List Realtor) : List Couple :=
  db.couples.filter (fun c => rs.any (fun r => r.id == c.realtorId))

/-- `PendingCouple.objects.filter(realtor=realtor)` where `realtor` is a
queryset. -/
def realtorOwnedPendingCouples (db : DB) (rs : List Realtor) : List PendingCouple :=
  db.pendingCouples.filter (fun pc => rs.any (fun r => r.id == pc.realtorId))

/-- `Homebuyer.objects.filter(couple=couple)` for a single couple. -/
def coupleHomebuyers (db : DB) (c : Couple) : List Homebuyer :=
  db.homebuyers.filter (fun hb => hb.coupleId == some c.id)

/-- `PendingHomebuyer.objects.filter(pending_couple=pendingCouple)`. -/
def pendingCoupleHomebuyers (db : DB) (pc : PendingCouple) : List PendingHomebuyer :=
  db.pendingHomebuyers.filter (fun ph => ph.pendingCoupleId == pc.id)

/-- One entry of the realtor home page couple data: a couple or pending
couple, its (pending) homebuyers, and the pending flag. -/
abbrev CoupleEntry :=
  (Couple ⊕ PendingCouple) × (List Homebuyer ⊕ List PendingHomebuyer) × Bool

/-- The tuple appended for a real couple: `(couple, homebuyer, False)`. -/
def realEntry (db : DB) (c : Couple) : CoupleEntry :=
  (Sum.inl c, Sum.inl (coupleHomebuyers db c), false)

/-- The tuple appended for a pending couple:
`(pendingCouple, pendingHomebuyer, True)`. -/
def pendingEntry (db : DB) (pc : PendingCouple) : CoupleEntry :=
  (Sum.inr pc, Sum.inr (pendingCoupleHomebuyers db pc), true)

/-- The two `coupleData` loops of `HomeView.get`/`HomeView.post`: append one
entry per real couple, then one entry per pending couple. -/
def buildCoupleData (db : DB) (couples : List Couple) (pcs : List PendingCouple) :
    List CoupleEntry :=
  let d1 := couples.foldl (fun acc c => acc ++ [realEntry db c]) []
  pcs.foldl (fun acc pc => acc ++ [pendingEntry db pc]) d1

/-- The response of `HomeView.get`. -/
inductive HomeResponse where
  | homebuyerPage (couples : List Couple) (houses : List House)
  | realtorPage (coupleData : List CoupleEntry) (houses : List House)
  | neither
deriving DecidableEq, Repr

/-- `HomeView.get`: branch on the truthiness of the couple queryset, then of
the realtor queryset; otherwise raise
`Exception("Neither a Homebuyer nor a Realtor")` (the `neither` response). -/
def homeGet (db : DB) (userId : Nat) : HomeResponse :=
  let couple := userCouples db userId
  let realtor := userRealtors db userId
  if couple.isEmpty = false then
    HomeResponse.homebuyerPage couple (housesOfCouples db couple)
  else if realtor.isEmpty = false then
    let couples := realtorOwnedCouples db realtor
    let pendingCouples := realtorOwnedPendingCouples db realtor
    HomeResponse.realtorPage (buildCoupleData db couples pendingCouples)
      (housesOfCouples db couple)
  else
    HomeResponse.neither

/-- The response of `HomeView.post`. -/
inductive HomePostResponse where
  /-- The homebuyer branch renders a context mentioning the unbound name
  `couples`, raising `NameError` (a server fault) before rendering. -/
  | nameError
  /-- Realtor branch: the page rendered with the couple data. -/
  | realtorPage (coupleData : List CoupleEntry)
  /-- `Exception("Neither a Homebuyer nor a Realtor")`. -/
  | neither
  /-- An exception escaping the transaction block propagates as a server
  error. -/
  | serverError
deriving DecidableEq, Repr

/-- `HomeView._invite_homebuyer`: create the PendingHomebuyer and send the
email invite.  `failed` injects a failure of this step (the creation or the
email send raising); the raised exception is modelled as `none`. -/
def invite_homebuyer (st : DB) (pcId : Nat) (email : String) (failed : Bool) :
    Option DB :=
  if failed then none
  else some { st with pendingHomebuyers := st.pendingHomebuyers ++ [⟨email, pcId⟩] }

/-- `with transaction.atomic()`: run the body; if it raises (`none`), every
write inside the block is rolled back and the exception propagates, so the
caller observes `none` and the database stays at `st`. -/
def runAtomic (st : DB) (body : DB → Option DB) : Option DB :=
  body st

/-- `HomeView.post`.  `formValid` is the outcome of
`InviteHomebuyerForm.is_valid()`; `e1, e2` its cleaned emails; `newPcId` the
primary key the database assigns to the created PendingCouple; `fail1, fail2`
inject failures of the two invite steps after the PendingCouple creation.
The couple-data querysets are lazy, so they are evaluated against the
post-transaction state. -/
def homePost (db : DB) (userId : Nat) (formValid : Bool) (e1 e2 : String)
    (newPcId : Nat) (fail1 fail2 : Bool) : HomePostResponse × DB :=
  let realtor := userRealtors db userId
  let couple := userCouples db userId
  if couple.isEmpty = false then
    (HomePostResponse.nameError, db)
  else
    match realtor with
    | [] => (HomePostResponse.neither, db)
    | r :: rs =>
      if formValid then
        let txn := runAtomic db (fun s0 =>
          let s1 := { s0 with pendingCouples := s0.pendingCouples ++ [⟨newPcId, r.id⟩] }
          match invite_homebuyer s1 newPcId e1 fail1 with
          | none => none
          | some s2 => invite_homebuyer s2 newPcId e2 fail2)
        match txn with
        | none => (HomePostResponse.serverError, db)
        | some db2 =>
          let couples := realtorOwnedCouples db2 (r :: rs)
          let pendingCouples := realtorOwnedPendingCouples db2 (r :: rs)
          (HomePostResponse.realtorPage (buildCoupleData db2 couples pendingCouples), db2)
      else
        let couples := realtorOwnedCouples db (r :: rs)
        let pendingCouples := realtorOwnedPendingCouples db (r :: rs)
        (HomePostResponse.realtorPage (buildCoupleData db couples pendingCouples), db)

/-- CPython object identity on two integers read from separate database
fetches: `a is b` holds exactly when the common value is interned.  CPython
interns the small integers up to 256, so distinct fetches of an id share
one object iff the id is at most 256. -/
def pyIs (a b : Nat) : Bool :=
  a == b && a ≤ 256

/-- The inner loop of the `EvalView.get` merge: the first grade whose
`grade.category.id is category.id`, else the `None` sentinel. -/
def gradeScoreFor (grades : List Grade) (catId : Nat) : Option Int :=
  match grades.find? (fun g => pyIs g.categoryId catId) with
  | some g => some g.score
  | none => none

/-- `EvalView._permission_check` combined with the role gate of
`BaseView.dispatch`: the role must resolve, be an allowed type, and the house
must belong to the homebuyer couple.  (A homebuyer whose couple link is null
would raise `AttributeError` in Python; no state reached by the claims has
one, and the embedding denies it.) -/
def evalPermission (db : DB) (userId houseId : Nat) : Bool :=
  match roleObject db userId with
  | Role.homebuyer hb =>
    match hb.coupleId with
    | some cid => db.houses.any (fun h => h.id == houseId && h.coupleId == cid)
    | none => false
  | _ => false

/-- Modelled from the spec: the Grade model (not under src/) declares on its
score field a fixed ordered choice set of (value, label) pairs and a default
value. -/
structure ScoreField where
  choices : List (Int × String)
  default : Int
deriving DecidableEq, Repr

/-- The static scoring metadata returned by `EvalView._score_context`
(the `js_scores` JSON dump of the same dict is presentation only and is
omitted). -/
structure ScoreContext where
  min_score : Int
  max_score : Int
  min_choice : String
  max_choice : String
  default_score : Int
deriving DecidableEq, Repr

/-- The key set of `dict(score_field.choices)`. -/
def dictKeys (l : List (Int × String)) : List Int :=
  (l.map Prod.fst).dedup

/-- Lookup in `dict(score_field.choices)`: a later duplicate key overrides an
earlier one. -/
def dictGet (l : List (Int × String)) (k : Int) : Option String :=
  match l.reverse.find? (fun p => p.1 == k) with
  | some p => some p.2
  | none => none

/-- Python `min` over a non-empty iterable of integers; `none` models the
`ValueError` raised on an empty one. -/
def pyMin : List Int → Option Int
  | [] => none
  | x :: xs => some (xs.foldl min x)

/-- Python `max` over a non-empty iterable of integers; `none` models the
`ValueError` raised on an empty one. -/
def pyMax : List Int → Option Int
  | [] => none
  | x :: xs => some (xs.foldl max x)

/-- `EvalView._score_context`: min and max over the keys of the choice dict,
their labels, and the field default.  `none` models the exception raised on
an empty choice set. -/
def score_context (sf : ScoreField) : Option ScoreContext :=
  let ks := dictKeys sf.choices
  match pyMin ks, pyMax ks with
  | some mn, some mx =>
    match dictGet sf.choices mn, dictGet sf.choices mx with
    | some mnLabel, some mxLabel =>
      some ⟨mn, mx, mnLabel, mxLabel, sf.default⟩
    | _, _ => none
  | _, _ => none

/-- The response of the evaluation view. -/
inductive EvalResponse where
  /-- `PermissionDenied`. -/
  | denied
  /-- `Http404` from `get_object_or_404`. -/
  | notFound
  /-- The rendered evaluation page: the merged `(category, score)` list and
  the scoring metadata. -/
  | page (graded : List (Category × Option Int)) (ctx : ScoreContext)
  /-- The JSON acknowledgment of a write. -/
  | ack (catId : Nat) (score : Int)
  /-- An unhandled exception (`ValueError`, `DoesNotExist`, null lookup). -/
  | serverError
deriving DecidableEq, Repr

/-- `EvalView.get` behind `BaseView.dispatch`: permission check, then fetch
the house, the couple categories and the homebuyer grades for the house, and
merge them into one `(category, score-or-None)` pair per category. -/
def evalGet (db : DB) (sf : ScoreField) (userId houseId : Nat) : EvalResponse :=
  if evalPermission db userId houseId = false then
    EvalResponse.denied
  else
    let couples := userCouples db userId
    let categories := db.categories.filter (fun c => couples.any (fun cp => cp.id == c.coupleId))
    match db.houses.find? (fun h => h.id == houseId) with
    | none => EvalResponse.notFound
    | some house =>
      match roleObject db userId with
      | Role.homebuyer hb =>
        let grades := db.grades.filter (fun g =>
          g.houseId == house.id && g.homebuyerId == hb.id)
        let graded := categories.map (fun c => (c, gradeScoreFor grades c.id))
        match score_context sf with
        | some ctx => EvalResponse.page graded ctx
        | none => EvalResponse.serverError
      | _ => EvalResponse.serverError

/-- The key predicate of `Grade.objects.update_or_create`. -/
def gradeKeyMatch (hbId catId houseId : Nat) (g : Grade) : Bool :=
  g.homebuyerId == hbId && g.categoryId == catId && g.houseId == houseId

/-- Update the score of the first row matching the key (the row
`update_or_create` gets under the unique constraint on the triple). -/
def updateFirstGrade (hbId catId houseId : Nat) (score : Int) :
    List Grade → List Grade
  | [] => []
  | g :: gs =>
    if gradeKeyMatch hbId catId houseId g then
      { g with score := score } :: gs
    else
      g :: updateFirstGrade hbId catId houseId score gs

/-- `Grade.objects.update_or_create(homebuyer=…, category=…, house=…,
defaults={score})`: update the existing row for the triple, else create
one. -/
def update_or_create (grades : List Grade) (hbId catId houseId : Nat)
    (score : Int) : List Grade :=
  if grades.any (gradeKeyMatch hbId catId houseId) then
    updateFirstGrade hbId catId houseId score grades
  else
    grades ++ [⟨hbId, catId, houseId, score⟩]

/-- `EvalView.post` behind `BaseView.dispatch`: permission check, AJAX
check, then fetch the homebuyer, the house (404 if absent) and the category
(`DoesNotExist` — a server fault — if absent), upsert the grade and echo
`{id, score}`. -/
def evalPost (db : DB) (isAjax : Bool) (userId houseId catId : Nat)
    (score : Int) : EvalResponse × DB :=
  if evalPermission db userId houseId = false then
    (EvalResponse.denied, db)
  else if isAjax = false then
    (EvalResponse.denied, db)
  else
    let homebuyerQS := db.homebuyers.filter (fun hb => hb.userId == userId)
    match db.houses.find? (fun h => h.id == houseId) with
    | none => (EvalResponse.notFound, db)
    | some house =>
      match db.categories.find? (fun c => c.id == catId) with
      | none => (EvalResponse.serverError, db)
      | some category =>
        match homebuyerQS.head? with
        | none => (EvalResponse.serverError, db)
        | some hb =>
          let grades2 := update_or_create db.grades hb.id category.id house.id score
          (EvalResponse.ack catId score, { db with grades := grades2 })

/-! ### Concrete database states used as witnesses and counterexamples -/

/-- A sample score choice set with its default. -/
def sfSample : ScoreField :=
  ⟨[(1, "Poor"), (2, "Fair"), (3, "Good"), (4, "Great")], 3⟩

/-- User 1 is the homebuyer of couple 1, which owns house 5 and two
categories; both categories are graded, one with id 300 (above the CPython
small-integer cache bound) and one with id 2. -/
def dbMerge : DB :=
  { homebuyers := [⟨1, 1, some 1⟩], realtors := [], couples := [⟨1, 7⟩],
    houses := [⟨5, 1⟩], categories := [⟨300, 1⟩, ⟨2, 1⟩],
    grades := [⟨1, 300, 5, 3⟩, ⟨1, 2, 5, 4⟩],
    pendingCouples := [], pendingHomebuyers := [] }

/-- User 1 is the homebuyer of couple 1; no house exists. -/
def dbNoHouse : DB :=
  { homebuyers := [⟨1, 1, some 1⟩], realtors := [], couples := [⟨1, 7⟩],
    houses := [], categories := [], grades := [],
    pendingCouples := [], pendingHomebuyers := [] }

/-- User 1 is the homebuyer of couple 1; house 5 exists but belongs to
couple 2. -/
def dbOtherHouse : DB :=
  { homebuyers := [⟨1, 1, some 1⟩], realtors := [], couples := [⟨1, 7⟩, ⟨2, 7⟩],
    houses := [⟨5, 2⟩], categories := [], grades := [],
    pendingCouples := [], pendingHomebuyers := [] }

/-- User 1 has a Homebuyer record with no couple link, and nothing else. -/
def dbHbNoCouple : DB :=
  { homebuyers := [⟨1, 1, none⟩], realtors := [], couples := [], houses := [],
    categories := [], grades := [], pendingCouples := [], pendingHomebuyers := [] }

/-- User 2 is realtor 10 owning no couples and no pending couples. -/
def dbRealtorNoCouples : DB :=
  { homebuyers := [], realtors := [⟨10, 2⟩], couples := [], houses := [],
    categories := [], grades := [], pendingCouples := [], pendingHomebuyers := [] }

/-! ### Shared lemmas about the permission gate -/

/-- If no house of the database both carries the requested id and belongs to
the homebuyer couple, the permission check fails. -/
theorem evalPermission_eq_false_of_not_linked (db : DB) (u houseId : Nat)
    (hb : Homebuyer) (cid : Nat)
    (hrole : roleObject db u = Role.homebuyer hb)
    (hcid : hb.coupleId = some cid)
    (hnot : ∀ h ∈ db.houses, h.id = houseId → h.coupleId ≠ cid) :
    evalPermission db u houseId = false := by
  simp only [evalPermission, hrole, hcid]
  rw [List.any_eq_false]
  intro h hmem
  simp only [Bool.and_eq_true, beq_iff_eq, not_and]
  intro h1 h2
  exact hnot h hmem h1 h2

/-- A failed permission check makes the read path answer `PermissionDenied`
before any handler logic. -/
theorem evalGet_denied_of_perm_false (db : DB) (sf : ScoreField) (u houseId : Nat)
    (hperm : evalPermission db u houseId = false) :
    evalGet db sf u houseId = EvalResponse.denied := by
  simp [evalGet, hperm]

/-- A failed permission check makes the write path answer `PermissionDenied`
and leave the database untouched. -/
theorem evalPost_denied_of_perm_false (db : DB) (ajax : Bool)
    (u houseId catId : Nat) (s : Int)
    (hperm : evalPermission db u houseId = false) :
    evalPost db ajax u houseId catId s = (EvalResponse.denied, db) := by
  simp [evalPost, hperm]

/-! ### Claim theorems -/

/-- Claim C1 (code bug): the read-path merge is meant to pair each category
with its grade score, but the source compares the two ids with Python `is`
(object identity).  In `dbMerge` the homebuyer has graded category 300 of
house 5, and one grade row for exactly that (homebuyer, category, house)
triple exists, yet the page shows the `None` (ungraded) sentinel for it,
because 300 exceeds the CPython small-integer cache; the category with the
small id 2 is paired with its score as the claim states. -/
theorem eval_merge_identity_bug :
    (dbMerge.grades.filter (gradeKeyMatch 1 300 5)).length = 1
    ∧ evalGet dbMerge sfSample 1 5 =
        EvalResponse.page [(⟨300, 1⟩, none), (⟨2, 1⟩, some 4)]
          ⟨1, 4, "Poor", "Great", 3⟩ := by
  exact ⟨rfl, rfl⟩

/-- Claim C4: a non-AJAX POST to the evaluation write path is rejected with
`PermissionDenied` and leaves the database (in particular every Grade row)
unchanged, whatever the payload. -/
theorem eval_post_non_ajax_denied (db : DB) (u houseId catId : Nat) (s : Int) :
    evalPost db false u houseId catId s = (EvalResponse.denied, db) := by
  by_cases hperm : evalPermission db u houseId = false
  · simp [evalPost, hperm]
  · simp [evalPost, hperm]

/-- Claim C5: a homebuyer asking for a house that exists but is not linked
to their couple is answered `PermissionDenied` on both the read and the
write path — never `NotFound`, never success — and the database is left
unchanged. -/
theorem eval_unowned_house_denied (db : DB) (sf : ScoreField) (u houseId : Nat)
    (hb : Homebuyer) (cid : Nat)
    (hrole : roleObject db u = Role.homebuyer hb)
    (hcid : hb.coupleId = some cid)
    (_hexists : ∃ h ∈ db.houses, h.id = houseId)
    (hnot : ∀ h ∈ db.houses, h.id = houseId → h.coupleId ≠ cid) :
    evalGet db sf u houseId = EvalResponse.denied
    ∧ ∀ (ajax : Bool) (catId : Nat) (s : Int),
        evalPost db ajax u houseId catId s = (EvalResponse.denied, db) := by
  have hperm := evalPermission_eq_false_of_not_linked db u houseId hb cid hrole hcid hnot
  exact ⟨evalGet_denied_of_perm_false db sf u houseId hperm,
    fun ajax catId s => evalPost_denied_of_perm_false db ajax u houseId catId s hperm⟩

/-- Witness for C5 at a concrete state: house 5 exists but belongs to the
other couple. -/
theorem eval_unowned_house_denied_w :
    evalGet dbOtherHouse sfSample 1 5 = EvalResponse.denied
    ∧ ∀ (ajax : Bool) (catId : Nat) (s : Int),
        evalPost dbOtherHouse ajax 1 5 catId s = (EvalResponse.denied, dbOtherHouse) :=
  eval_unowned_house_denied dbOtherHouse sfSample 1 5 ⟨1, 1, some 1⟩ 1 rfl rfl
    (by decide) (by decide)

/-- Counterexample to claim C6 as stated: with no house in the database at
all, a homebuyer requesting the read path for house id 99 receives
`PermissionDenied`, not `NotFound`. -/
theorem eval_missing_house_cex :
    evalGet dbNoHouse sfSample 1 99 = EvalResponse.denied
    ∧ evalGet dbNoHouse sfSample 1 99 ≠ EvalResponse.notFound := by
  exact ⟨rfl, by decide⟩

/-- Claim C6 as amended: when no house carries the requested id, the
object-permission check in `dispatch` already fails, so both paths answer
`PermissionDenied`; the `get_object_or_404` lookup (the would-be 404) is
never reached. -/
theorem eval_missing_house_denied (db : DB) (sf : ScoreField) (u houseId : Nat)
    (hb : Homebuyer) (cid : Nat)
    (hrole : roleObject db u = Role.homebuyer hb)
    (hcid : hb.coupleId = some cid)
    (hnone : ∀ h ∈ db.houses, h.id ≠ houseId) :
    evalGet db sf u houseId = EvalResponse.denied
    ∧ ∀ (ajax : Bool) (catId : Nat) (s : Int),
        evalPost db ajax u houseId catId s = (EvalResponse.denied, db) := by
  have hperm := evalPermission_eq_false_of_not_linked db u houseId hb cid hrole hcid
    (fun h hm h1 _ => absurd h1 (hnone h hm))
  exact ⟨evalGet_denied_of_perm_false db sf u houseId hperm,
    fun ajax catId s => evalPost_denied_of_perm_false db ajax u houseId catId s hperm⟩

/-- Witness for the amended C6 at a concrete state with no houses. -/
theorem eval_missing_house_denied_w :
    evalGet dbNoHouse sfSample 1 99 = EvalResponse.denied
    ∧ ∀ (ajax : Bool) (catId : Nat) (s : Int),
        evalPost dbNoHouse ajax 1 99 catId s = (EvalResponse.denied, dbNoHouse) :=
  eval_missing_house_denied dbNoHouse sfSample 1 99 ⟨1, 1, some 1⟩ 1 rfl rfl (by decide)

/-- Claim C7 (code bug): the home view branches on the existence of a Couple
row, not on the resolved role.  For user 1, whose role resolves to a
Homebuyer (with no couple), the view raises the fatal
`Exception("Neither a Homebuyer nor a Realtor")` instead of rendering the
homebuyer branch; the realtor half of the claim does hold, as the concrete
realtor-without-couples state shows. -/
theorem home_homebuyer_without_couple_fatal :
    roleObject dbHbNoCouple 1 = Role.homebuyer ⟨1, 1, none⟩
    ∧ homeGet dbHbNoCouple 1 = HomeResponse.neither
    ∧ roleObject dbRealtorNoCouples 2 = Role.realtor ⟨10, 2⟩
    ∧ homeGet dbRealtorNoCouples 2 = HomeResponse.realtorPage [] [] := by
  exact ⟨rfl, rfl, rfl, rfl⟩

/-- User 1 is at once the homebuyer of couple 1 and realtor 10 (who owns
that couple). -/
def dbBoth : DB :=
  { homebuyers := [⟨1, 1, some 1⟩], realtors := [⟨10, 1⟩], couples := [⟨1, 10⟩],
    houses := [⟨5, 1⟩], categories := [], grades := [],
    pendingCouples := [], pendingHomebuyers := [] }

/-- Folding append-of-singleton over a list builds the mapped list after the
accumulator. -/
theorem foldl_append_singleton {α β : Type} (f : α → β) (l : List α) :
    ∀ init : List β, l.foldl (fun acc a => acc ++ [f a]) init = init ++ l.map f := by
  induction l with
  | nil => intro init; simp
  | cons a l ih => intro init; simp [ih (init ++ [f a])]

/-- The two `coupleData` loops produce the real-couple entries first and the
pending-couple entries second, one entry per (pending) couple, in order. -/
theorem buildCoupleData_eq (db : DB) (cs : List Couple) (pcs : List PendingCouple) :
    buildCoupleData db cs pcs = cs.map (realEntry db) ++ pcs.map (pendingEntry db) := by
  simp [buildCoupleData, foldl_append_singleton]

/-- Claim C10: the home view tests the homebuyer condition (a Couple row
containing the caller) before the realtor condition; with a Couple present
the homebuyer branch renders whatever Realtor rows exist, and on both GET
and POST the fatal neither-role exception fires exactly when the caller has
no Couple and no Realtor row — a characterisation in which `roleObject`
plays no part. -/
theorem home_dispatch_condition_order (db : DB) (u : Nat) (fv : Bool)
    (e1 e2 : String) (pcId : Nat) (f1 f2 : Bool) :
    (userCouples db u ≠ [] →
      homeGet db u = HomeResponse.homebuyerPage (userCouples db u)
        (housesOfCouples db (userCouples db u)))
    ∧ (homeGet db u = HomeResponse.neither
        ↔ (userCouples db u = [] ∧ userRealtors db u = []))
    ∧ ((homePost db u fv e1 e2 pcId f1 f2).1 = HomePostResponse.neither
        ↔ (userCouples db u = [] ∧ userRealtors db u = [])) := by
  refine ⟨?_, ?_, ?_⟩
  · intro hne
    cases hc : userCouples db u with
    | nil => exact absurd hc hne
    | cons c cs => simp [homeGet, hc]
  · cases hc : userCouples db u with
    | cons c cs => simp [homeGet, hc]
    | nil =>
      cases hr : userRealtors db u with
      | cons r rs => simp [homeGet, hc, hr]
      | nil => simp [homeGet, hc, hr]
  · cases hc : userCouples db u with
    | cons c cs => simp [homePost, hc]
    | nil =>
      cases hr : userRealtors db u with
      | nil => simp [homePost, hc, hr]
      | cons r rs =>
        cases fv with
        | false => simp [homePost, hc, hr]
        | true =>
          cases f1 <;> cases f2 <;>
            simp [homePost, hc, hr, runAtomic, invite_homebuyer]

/-- Witness for C10: user 1 satisfies both the homebuyer and the realtor
condition and gets the homebuyer page. -/
theorem home_dispatch_condition_order_w :
    homeGet dbBoth 1 = HomeResponse.homebuyerPage (userCouples dbBoth 1)
      (housesOfCouples dbBoth (userCouples dbBoth 1)) :=
  (home_dispatch_condition_order dbBoth 1 true "a@x.y" "b@x.y" 9 false false).1
    (by decide)

/-- Claim C9: for a realtor viewing the home page (GET, POST with an invalid
form, and POST after a successful invitation alike), the rendered couple
data is the real couples mapped to `(couple, homebuyers, False)` entries
followed by the pending couples mapped to
`(pendingCouple, pendingHomebuyers, True)` entries, in order. -/
theorem realtor_couple_data_order (db : DB) (u : Nat)
    (hc : userCouples db u = []) (hr : userRealtors db u ≠ []) :
    (∃ hs, homeGet db u = HomeResponse.realtorPage
        ((realtorOwnedCouples db (userRealtors db u)).map (realEntry db)
          ++ (realtorOwnedPendingCouples db (userRealtors db u)).map (pendingEntry db)) hs)
    ∧ (∀ c : Couple, (realEntry db c).2.2 = false)
    ∧ (∀ pc : PendingCouple, (pendingEntry db pc).2.2 = true)
    ∧ (∀ (e1 e2 : String) (pcId : Nat) (f1 f2 : Bool),
        (homePost db u false e1 e2 pcId f1 f2).1 = HomePostResponse.realtorPage
          ((realtorOwnedCouples db (userRealtors db u)).map (realEntry db)
            ++ (realtorOwnedPendingCouples db (userRealtors db u)).map (pendingEntry db)))
    ∧ (∀ (e1 e2 : String) (pcId : Nat),
        (homePost db u true e1 e2 pcId false false).1 = HomePostResponse.realtorPage
          ((realtorOwnedCouples (homePost db u true e1 e2 pcId false false).2
              (userRealtors db u)).map
              (realEntry (homePost db u true e1 e2 pcId false false).2)
            ++ (realtorOwnedPendingCouples (homePost db u true e1 e2 pcId false false).2
                (userRealtors db u)).map
              (pendingEntry (homePost db u true e1 e2 pcId false false).2))) := by
  cases hrr : userRealtors db u with
  | nil => exact absurd hrr hr
  | cons r rs =>
    refine ⟨⟨housesOfCouples db (userCouples db u), ?_⟩, fun c => rfl, fun pc => rfl, ?_, ?_⟩
    · simp [homeGet, hc, hrr, buildCoupleData_eq]
    · intro e1 e2 pcId f1 f2
      simp [homePost, hc, hrr, buildCoupleData_eq]
    · intro e1 e2 pcId
      simp [homePost, hc, hrr, buildCoupleData_eq, runAtomic, invite_homebuyer]

/-- Witness for C9 at the concrete realtor state. -/
theorem realtor_couple_data_order_w :
    ∃ hs, homeGet dbRealtorNoCouples 2 = HomeResponse.realtorPage
      ((realtorOwnedCouples dbRealtorNoCouples (userRealtors dbRealtorNoCouples 2)).map
          (realEntry dbRealtorNoCouples)
        ++ (realtorOwnedPendingCouples dbRealtorNoCouples
            (userRealtors dbRealtorNoCouples 2)).map
          (pendingEntry dbRealtorNoCouples)) hs :=
  (realtor_couple_data_order dbRealtorNoCouples 2 (by decide) (by decide)).1

/-- Claim C3: with a valid form, the invitation POST commits exactly one new
PendingCouple row (fresh id `newPcId`, owned by the caller realtor) and
exactly two new PendingHomebuyer rows, both linked to it; and whenever
either step after the PendingCouple creation fails, the transaction rolls
the database back to exactly the pre-request state, so no partial invitation
survives. -/
theorem invite_transaction_atomic (db : DB) (u newPcId : Nat) (e1 e2 : String)
    (r : Realtor) (rs : List Realtor)
    (hc : userCouples db u = [])
    (hr : userRealtors db u = r :: rs)
    (hfpc : ∀ pc ∈ db.pendingCouples, pc.id ≠ newPcId)
    (hfph : ∀ ph ∈ db.pendingHomebuyers, ph.pendingCoupleId ≠ newPcId) :
    ((homePost db u true e1 e2 newPcId false false).2.pendingCouples
        = db.pendingCouples ++ [⟨newPcId, r.id⟩]
      ∧ (homePost db u true e1 e2 newPcId false false).2.pendingHomebuyers
        = db.pendingHomebuyers ++ [⟨e1, newPcId⟩, ⟨e2, newPcId⟩]
      ∧ ((homePost db u true e1 e2 newPcId false false).2.pendingCouples.filter
          (fun pc => pc.id == newPcId)) = [⟨newPcId, r.id⟩]
      ∧ ((homePost db u true e1 e2 newPcId false false).2.pendingHomebuyers.filter
          (fun ph => ph.pendingCoupleId == newPcId)) = [⟨e1, newPcId⟩, ⟨e2, newPcId⟩])
    ∧ (∀ f1 f2 : Bool, (f1 || f2) = true →
        homePost db u true e1 e2 newPcId f1 f2 = (HomePostResponse.serverError, db)) := by
  have h1 : db.pendingCouples.filter (fun pc => pc.id == newPcId) = [] := by
    rw [List.filter_eq_nil_iff]
    intro pc hm
    simp [hfpc pc hm]
  have h2 : db.pendingHomebuyers.filter (fun ph => ph.pendingCoupleId == newPcId) = [] := by
    rw [List.filter_eq_nil_iff]
    intro ph hm
    simp [hfph ph hm]
  constructor
  · refine ⟨?_, ?_, ?_, ?_⟩ <;>
      simp [homePost, hc, hr, runAtomic, invite_homebuyer, List.filter_append, h1, h2]
  · intro f1 f2 hf
    cases f1 <;> cases f2 <;>
      simp_all [homePost, hc, hr, runAtomic, invite_homebuyer]

/-- Witness for C3 at the concrete realtor state (fresh pending couple id
21). -/
theorem invite_transaction_atomic_w :
    ((homePost dbRealtorNoCouples 2 true "a@x.y" "b@x.y" 21 false false).2.pendingCouples
        = dbRealtorNoCouples.pendingCouples ++ [⟨21, 10⟩]
      ∧ (homePost dbRealtorNoCouples 2 true "a@x.y" "b@x.y" 21 false
          false).2.pendingHomebuyers
        = dbRealtorNoCouples.pendingHomebuyers ++ [⟨"a@x.y", 21⟩, ⟨"b@x.y", 21⟩]
      ∧ ((homePost dbRealtorNoCouples 2 true "a@x.y" "b@x.y" 21 false
          false).2.pendingCouples.filter (fun pc => pc.id == 21)) = [⟨21, 10⟩]
      ∧ ((homePost dbRealtorNoCouples 2 true "a@x.y" "b@x.y" 21 false
          false).2.pendingHomebuyers.filter (fun ph => ph.pendingCoupleId == 21))
        = [⟨"a@x.y", 21⟩, ⟨"b@x.y", 21⟩])
    ∧ (∀ f1 f2 : Bool, (f1 || f2) = true →
        homePost dbRealtorNoCouples 2 true "a@x.y" "b@x.y" 21 f1 f2
          = (HomePostResponse.serverError, dbRealtorNoCouples)) :=
  invite_transaction_atomic dbRealtorNoCouples 2 21 "a@x.y" "b@x.y" ⟨10, 2⟩ []
    rfl rfl (by decide) (by decide)

/-! ### Minimum and maximum of a fold, for the score metadata -/

theorem foldl_min_le_init (xs : List Int) : ∀ x : Int, xs.foldl min x ≤ x := by
  induction xs with
  | nil => intro x; simp
  | cons y ys ih =>
    intro x
    simp only [List.foldl_cons]
    exact le_trans (ih (min x y)) (min_le_left x y)

theorem foldl_min_le_mem (xs : List Int) : ∀ x y : Int, y ∈ xs → xs.foldl min x ≤ y := by
  induction xs with
  | nil => intro x y hy; cases hy
  | cons z zs ih =>
    intro x y hy
    simp only [List.foldl_cons]
    cases List.mem_cons.mp hy with
    | inl h =>
      rw [h]
      exact le_trans (foldl_min_le_init zs (min x z)) (min_le_right x z)
    | inr h => exact ih (min x z) y h

theorem foldl_min_mem (xs : List Int) : ∀ x : Int, xs.foldl min x ∈ x :: xs := by
  induction xs with
  | nil => intro x; simp
  | cons y ys ih =>
    intro x
    simp only [List.foldl_cons]
    cases List.mem_cons.mp (ih (min x y)) with
    | inl h =>
      cases min_choice x y with
      | inl hx => rw [h, hx]; exact List.mem_cons_self _ _
      | inr hy => rw [h, hy]; simp
    | inr h => simp [List.mem_cons, h]

theorem foldl_max_ge_init (xs : List Int) : ∀ x : Int, x ≤ xs.foldl max x := by
  induction xs with
  | nil => intro x; simp
  | cons y ys ih =>
    intro x
    simp only [List.foldl_cons]
    exact le_trans (le_max_left x y) (ih (max x y))

theorem foldl_max_ge_mem (xs : List Int) : ∀ x y : Int, y ∈ xs → y ≤ xs.foldl max x := by
  induction xs with
  | nil => intro x y hy; cases hy
  | cons z zs ih =>
    intro x y hy
    simp only [List.foldl_cons]
    cases List.mem_cons.mp hy with
    | inl h =>
      rw [h]
      exact le_trans (le_max_right x z) (foldl_max_ge_init zs (max x z))
    | inr h => exact ih (max x z) y h

theorem foldl_max_mem (xs : List Int) : ∀ x : Int, xs.foldl max x ∈ x :: xs := by
  induction xs with
  | nil => intro x; simp
  | cons y ys ih =>
    intro x
    simp only [List.foldl_cons]
    cases List.mem_cons.mp (ih (max x y)) with
    | inl h =>
      cases max_choice x y with
      | inl hx => rw [h, hx]; exact List.mem_cons_self _ _
      | inr hy => rw [h, hy]; simp
    | inr h => simp [List.mem_cons, h]

/-- Python `min` on a non-empty list returns an element below every
element. -/
theorem pyMin_spec (l : List Int) (hne : l ≠ []) :
    ∃ m, pyMin l = some m ∧ m ∈ l ∧ ∀ y ∈ l, m ≤ y := by
  cases l with
  | nil => exact absurd rfl hne
  | cons x xs =>
    refine ⟨xs.foldl min x, rfl, foldl_min_mem xs x, ?_⟩
    intro y hy
    cases List.mem_cons.mp hy with
    | inl h => rw [h]; exact foldl_min_le_init xs x
    | inr h => exact foldl_min_le_mem xs x y h

/-- Python `max` on a non-empty list returns an element above every
element. -/
theorem pyMax_spec (l : List Int) (hne : l ≠ []) :
    ∃ m, pyMax l = some m ∧ m ∈ l ∧ ∀ y ∈ l, y ≤ m := by
  cases l with
  | nil => exact absurd rfl hne
  | cons x xs =>
    refine ⟨xs.foldl max x, rfl, foldl_max_mem xs x, ?_⟩
    intro y hy
    cases List.mem_cons.mp hy with
    | inl h => rw [h]; exact foldl_max_ge_init xs x
    | inr h => exact foldl_max_ge_mem xs x y h

/-- A successful dict lookup returns a binding present in the choice
list. -/
theorem dictGet_mem (l : List (Int × String)) (k : Int) (v : String)
    (h : dictGet l k = some v) : (k, v) ∈ l := by
  unfold dictGet at h
  cases hf : l.reverse.find? (fun p => p.1 == k) with
  | none => rw [hf] at h; cases h
  | some p =>
    rw [hf] at h
    injection h with hv
    have hp := List.find?_some hf
    have hm := List.mem_of_find?_eq_some hf
    rw [List.mem_reverse] at hm
    have hkv : (k, v) = p := by
      obtain ⟨p1, p2⟩ := p
      simp only [beq_iff_eq] at hp
      simp_all
    rw [hkv]
    exact hm

/-- A key of the choice dict always has a label. -/
theorem dictGet_isSome (l : List (Int × String)) (k : Int)
    (hk : k ∈ l.map Prod.fst) : ∃ v, dictGet l k = some v := by
  unfold dictGet
  cases hf : l.reverse.find? (fun p => p.1 == k) with
  | some p => exact ⟨p.2, rfl⟩
  | none =>
    exfalso
    have hall := List.find?_eq_none.mp hf
    obtain ⟨p, hp, hpk⟩ := List.mem_map.mp hk
    exact absurd (by simp [hpk]) (hall p (List.mem_reverse.mpr hp))

/-- Claim C8: on a non-empty choice set, `_score_context` returns metadata
in which `min_score` and `max_score` are the least and greatest choice
values, `min_choice` and `max_choice` are labels the choice set pairs with
exactly those two values, and `default_score` is the field default. -/
theorem score_context_metadata (sf : ScoreField) (hne : sf.choices ≠ []) :
    ∃ ctx, score_context sf = some ctx
      ∧ ctx.min_score ∈ sf.choices.map Prod.fst
      ∧ (∀ v ∈ sf.choices.map Prod.fst, ctx.min_score ≤ v)
      ∧ ctx.max_score ∈ sf.choices.map Prod.fst
      ∧ (∀ v ∈ sf.choices.map Prod.fst, v ≤ ctx.max_score)
      ∧ (ctx.min_score, ctx.min_choice) ∈ sf.choices
      ∧ (ctx.max_score, ctx.max_choice) ∈ sf.choices
      ∧ ctx.default_score = sf.default := by
  have hkeysne : dictKeys sf.choices ≠ [] := by
    intro h
    unfold dictKeys at h
    rw [List.dedup_eq_nil] at h
    exact hne (List.map_eq_nil_iff.mp h)
  obtain ⟨mn, hmn, hmnmem, hmnle⟩ := pyMin_spec _ hkeysne
  obtain ⟨mx, hmx, hmxmem, hmxge⟩ := pyMax_spec _ hkeysne
  have hmn' : mn ∈ sf.choices.map Prod.fst := List.mem_dedup.mp hmnmem
  have hmx' : mx ∈ sf.choices.map Prod.fst := List.mem_dedup.mp hmxmem
  obtain ⟨vmn, hvmn⟩ := dictGet_isSome _ _ hmn'
  obtain ⟨vmx, hvmx⟩ := dictGet_isSome _ _ hmx'
  refine ⟨⟨mn, mx, vmn, vmx, sf.default⟩, ?_, hmn', ?_, hmx', ?_,
    dictGet_mem _ _ _ hvmn, dictGet_mem _ _ _ hvmx, rfl⟩
  · simp only [score_context, hmn, hmx, hvmn, hvmx]
  · intro v hv
    exact hmnle v (List.mem_dedup.mpr hv)
  · intro v hv
    exact hmxge v (List.mem_dedup.mpr hv)

/-- Witness for C8 at the sample choice set. -/
theorem score_context_metadata_w :
    ∃ ctx, score_context sfSample = some ctx
      ∧ ctx.min_score ∈ sfSample.choices.map Prod.fst
      ∧ (∀ v ∈ sfSample.choices.map Prod.fst, ctx.min_score ≤ v)
      ∧ ctx.max_score ∈ sfSample.choices.map Prod.fst
      ∧ (∀ v ∈ sfSample.choices.map Prod.fst, v ≤ ctx.max_score)
      ∧ (ctx.min_score, ctx.min_choice) ∈ sfSample.choices
      ∧ (ctx.max_score, ctx.max_choice) ∈ sfSample.choices
      ∧ ctx.default_score = sfSample.default :=
  score_context_metadata sfSample (by decide)

/-! ### The grade upsert -/

/-- A row matching the key, with its score replaced, is the canonical row
for the key. -/
theorem grade_eq_of_keyMatch (hbId catId houseId : Nat) (g : Grade) (s : Int)
    (h : gradeKeyMatch hbId catId houseId g = true) :
    ({ g with score := s } : Grade) = ⟨hbId, catId, houseId, s⟩ := by
  obtain ⟨a, b, c, d⟩ := g
  simp only [gradeKeyMatch, Bool.and_eq_true, beq_iff_eq] at h
  simp_all

/-- Replacing the score does not change whether a row matches the key. -/
theorem keyMatch_set_score (hbId catId houseId : Nat) (g : Grade) (s : Int) :
    gradeKeyMatch hbId catId houseId { g with score := s }
      = gradeKeyMatch hbId catId houseId g := rfl

/-- The canonical row matches its own key. -/
theorem keyMatch_self (hbId catId houseId : Nat) (s : Int) :
    gradeKeyMatch hbId catId houseId ⟨hbId, catId, houseId, s⟩ = true := by
  simp [gradeKeyMatch]

/-- Updating the first matching row leaves, among the rows matching the key,
exactly the canonical row with the new score — provided the key matched at
most one row before (the unique constraint) and at least one (the update
branch). -/
theorem filter_updateFirstGrade_key (hbId catId houseId : Nat) (s : Int)
    (gs : List Grade)
    (hlen : (gs.filter (gradeKeyMatch hbId catId houseId)).length ≤ 1)
    (hany : gs.any (gradeKeyMatch hbId catId houseId) = true) :
    (updateFirstGrade hbId catId houseId s gs).filter
        (gradeKeyMatch hbId catId houseId)
      = [⟨hbId, catId, houseId, s⟩] := by
  induction gs with
  | nil => simp at hany
  | cons g gs ih =>
    by_cases hk : gradeKeyMatch hbId catId houseId g = true
    · have hnil : gs.filter (gradeKeyMatch hbId catId houseId) = [] := by
        simp only [List.filter_cons, hk, if_true, List.length_cons] at hlen
        have : (gs.filter (gradeKeyMatch hbId catId houseId)).length = 0 := by omega
        exact List.length_eq_zero.mp this
      simp [updateFirstGrade, hk, grade_eq_of_keyMatch hbId catId houseId g s hk,
        List.filter_cons, keyMatch_self, hnil]
    · have hk' : gradeKeyMatch hbId catId houseId g = false :=
        Bool.eq_false_iff.mpr hk
      simp only [List.filter_cons, hk', if_false, Bool.false_eq_true] at hlen
      simp only [List.any_cons, hk', Bool.false_or] at hany
      simp only [updateFirstGrade, hk', Bool.false_eq_true, if_false,
        List.filter_cons]
      rw [ih hlen hany]

/-- Updating the first matching row leaves the rows not matching the key
untouched. -/
theorem filter_updateFirstGrade_not_key (hbId catId houseId : Nat) (s : Int)
    (gs : List Grade) :
    (updateFirstGrade hbId catId houseId s gs).filter
        (fun g => !gradeKeyMatch hbId catId houseId g)
      = gs.filter (fun g => !gradeKeyMatch hbId catId houseId g) := by
  induction gs with
  | nil => rfl
  | cons g gs ih =>
    by_cases hk : gradeKeyMatch hbId catId houseId g = true
    · simp [updateFirstGrade, hk, List.filter_cons, keyMatch_set_score]
    · have hk' : gradeKeyMatch hbId catId houseId g = false :=
        Bool.eq_false_iff.mpr hk
      simp [updateFirstGrade, hk', List.filter_cons, ih]

/-- After the upsert, the key owns exactly the canonical row with the
submitted score (under the unique constraint on the triple). -/
theorem filter_update_or_create_key (gs : List Grade) (hbId catId houseId : Nat)
    (s : Int)
    (hlen : (gs.filter (gradeKeyMatch hbId catId houseId)).length ≤ 1) :
    (update_or_create gs hbId catId houseId s).filter
        (gradeKeyMatch hbId catId houseId)
      = [⟨hbId, catId, houseId, s⟩] := by
  unfold update_or_create
  by_cases hany : gs.any (gradeKeyMatch hbId catId houseId) = true
  · rw [if_pos hany]
    exact filter_updateFirstGrade_key hbId catId houseId s gs hlen hany
  · rw [if_neg hany]
    have hnil : gs.filter (gradeKeyMatch hbId catId houseId) = [] := by
      rw [List.filter_eq_nil_iff]
      intro g hg hgk
      exact hany (List.any_eq_true.mpr ⟨g, hg, hgk⟩)
    rw [List.filter_append, hnil]
    simp [keyMatch_self]

/-- The upsert leaves the rows not matching the key untouched. -/
theorem filter_update_or_create_not_key (gs : List Grade)
    (hbId catId houseId : Nat) (s : Int) :
    (update_or_create gs hbId catId houseId s).filter
        (fun g => !gradeKeyMatch hbId catId houseId g)
      = gs.filter (fun g => !gradeKeyMatch hbId catId houseId g) := by
  unfold update_or_create
  by_cases hany : gs.any (gradeKeyMatch hbId catId houseId) = true
  · rw [if_pos hany]
    exact filter_updateFirstGrade_not_key hbId catId houseId s gs
  · rw [if_neg hany]
    rw [List.filter_append]
    simp [keyMatch_self]

/-- On the happy path (permission granted, AJAX, house, category and
homebuyer found), the write path acknowledges the submission and performs
exactly the grade upsert. -/
theorem evalPost_ack (db : DB) (u houseId catId : Nat) (s : Int) (house : House)
    (category : Category) (hb : Homebuyer)
    (hperm : evalPermission db u houseId = true)
    (hhouse : db.houses.find? (fun h => h.id == houseId) = some house)
    (hcat : db.categories.find? (fun c => c.id == catId) = some category)
    (hhb : (db.homebuyers.filter (fun x => x.userId == u)).head? = some hb) :
    evalPost db true u houseId catId s =
      (EvalResponse.ack catId s,
       { db with grades := update_or_create db.grades hb.id catId houseId s }) := by
  have hhid : house.id = houseId := by simpa using List.find?_some hhouse
  have hcid : category.id = catId := by simpa using List.find?_some hcat
  simp [evalPost, hperm, hhouse, hcat, hhb, hhid, hcid]

/-- Claim C2: submitting a score twice for the same (homebuyer, category,
house) triple acknowledges both submissions, leaves exactly one Grade row
for the triple — carrying the latest score — and touches no other row. -/
theorem eval_post_upsert_idempotent (db : DB) (u houseId catId : Nat)
    (s1 s2 : Int) (house : House) (category : Category) (hb : Homebuyer)
    (hperm : evalPermission db u houseId = true)
    (hhouse : db.houses.find? (fun h => h.id == houseId) = some house)
    (hcat : db.categories.find? (fun c => c.id == catId) = some category)
    (hhb : (db.homebuyers.filter (fun x => x.userId == u)).head? = some hb)
    (huniq : (db.grades.filter (gradeKeyMatch hb.id catId houseId)).length ≤ 1) :
    (evalPost db true u houseId catId s1).1 = EvalResponse.ack catId s1
    ∧ (evalPost (evalPost db true u houseId catId s1).2 true u houseId catId s2).1
        = EvalResponse.ack catId s2
    ∧ ((evalPost (evalPost db true u houseId catId s1).2 true u houseId catId
          s2).2.grades.filter (gradeKeyMatch hb.id catId houseId))
        = [⟨hb.id, catId, houseId, s2⟩]
    ∧ ((evalPost (evalPost db true u houseId catId s1).2 true u houseId catId
          s2).2.grades.filter (fun g => !gradeKeyMatch hb.id catId houseId g))
        = db.grades.filter (fun g => !gradeKeyMatch hb.id catId houseId g) := by
  have h1 := evalPost_ack db u houseId catId s1 house category hb hperm hhouse hcat hhb
  have h2 := evalPost_ack
    { db with grades := update_or_create db.grades hb.id catId houseId s1 }
    u houseId catId s2 house category hb hperm hhouse hcat hhb
  have hfirst := filter_update_or_create_key db.grades hb.id catId houseId s1 huniq
  have hlen1 : ((update_or_create db.grades hb.id catId houseId s1).filter
      (gradeKeyMatch hb.id catId houseId)).length ≤ 1 := by
    rw [hfirst]
    simp
  refine ⟨?_, ?_, ?_, ?_⟩
  · rw [h1]
  · simp only [h1, h2]
  · simp only [h1, h2]
    exact filter_update_or_create_key _ hb.id catId houseId s2 hlen1
  · simp only [h1, h2]
    rw [filter_update_or_create_not_key, filter_update_or_create_not_key]

/-- Witness for C2 at the concrete state `dbMerge`: homebuyer 1 grades
category 2 of house 5 first 1, then 4. -/
theorem eval_post_upsert_idempotent_w :
    (evalPost dbMerge true 1 5 2 1).1 = EvalResponse.ack 2 1
    ∧ (evalPost (evalPost dbMerge true 1 5 2 1).2 true 1 5 2 4).1
        = EvalResponse.ack 2 4
    ∧ ((evalPost (evalPost dbMerge true 1 5 2 1).2 true 1 5 2
          4).2.grades.filter (gradeKeyMatch 1 2 5))
        = [⟨1, 2, 5, 4⟩]
    ∧ ((evalPost (evalPost dbMerge true 1 5 2 1).2 true 1 5 2
          4).2.grades.filter (fun g => !gradeKeyMatch 1 2 5 g))
        = dbMerge.grades.filter (fun g => !gradeKeyMatch 1 2 5 g) :=
  eval_post_upsert_idempotent dbMerge 1 5 2 1 4 ⟨5, 1⟩ ⟨2, 1⟩ ⟨1, 1, some 1⟩
    rfl rfl rfl rfl (by decide)

end RealEstateViews
